import Mathlib

/-!
Shallow embedding of src/quart/ctx.py: the task-local context stacks, the
reference-counted AppContext, the RequestContext and WebsocketContext
lifecycle, the after_this_request and has_*_context helpers, and the
_AppCtxGlobals store.

Modelling choices, mirrored from the source:
- A single task is modelled; its three task-local stacks, the mutable
  context objects (addressed by numeric ids, since Python contexts are
  mutable heap objects referenced from the stacks) and an allocation
  counter form the World state.
- Effectful Python methods become functions World -> World x List Event x
  Except Exc A.  The trace records every hook invocation, adapter match
  call and signal send, so that "invoked exactly once / not invoked" is
  a statement about the trace.  Exceptions short-circuit like Python
  exceptions but the state mutations already performed persist.
- External collaborators (router adapter, session store, teardown hooks,
  signals), whose code is outside this file-set, are data on AppModel,
  following the collaborator contracts of the spec (section 6): the
  adapter match either returns a rule with view args or fails with
  NotFound / MethodNotAllowed / RedirectRequired; hooks may raise.
- Python callables and opaque values are modelled as Nat codes.
-/

/-- Exceptions that can propagate out of lifecycle operations.
emptyStack is the spec-modelled EmptyStackError of the task-local stack;
noActiveContext is the failure of after_this_request with no active
request context (an attribute error on None in Python, named
NoActiveContextError by the spec); attributeError models any other
attribute access on None; exc n is an arbitrary exception raised by a
teardown hook or a handler body. -/
inductive Exc where
  | emptyStack
  | noActiveContext
  | attributeError
  | exc (n : Nat)
deriving DecidableEq

/-- Routing failures the url adapter can raise (Router contract, spec
section 6); these are exactly the classes caught in match_request. -/
inductive AdapterErr where
  | notFound
  | methodNotAllowed
  | redirectRequired
deriving DecidableEq

/-- Deferred routing failures storable on a request/websocket:
the three adapter failures plus BadRequest (websocket-only). -/
inductive RoutingExc where
  | notFound
  | methodNotAllowed
  | redirectRequired
  | badRequest
deriving DecidableEq

def AdapterErr.toRoutingExc : AdapterErr → RoutingExc
  | AdapterErr.notFound => RoutingExc.notFound
  | AdapterErr.methodNotAllowed => RoutingExc.methodNotAllowed
  | AdapterErr.redirectRequired => RoutingExc.redirectRequired

/-- A matched url rule; is_websocket mirrors Rule.is_websocket used by
WebsocketContext.match_request. -/
structure Rule where
  is_websocket : Bool
  endpoint : Nat
deriving DecidableEq

/-- The mutable fields of a Request/Websocket object that ctx.py touches:
url_rule, view_args (a Nat code for the extracted arguments) and
routing_exception. -/
structure BaseRequestWebsocket where
  url_rule : Option Rule
  view_args : Option Nat
  routing_exception : Option RoutingExc
deriving DecidableEq

/-- A session value: either the one returned by app.open_session or the
null session substituted by make_null_session. -/
inductive SessionVal where
  | opened (n : Nat)
  | nullSession
deriving DecidableEq

/-- The application handle as seen from ctx.py: the behaviour of its
collaborator methods.  adapterMatchResult is the outcome of
create_url_adapter(request_websocket).match(); openSessionResult is the
outcome of open_session (none means a null session is substituted);
the two hook fields give, for each error argument, the exception the
hook raises (none = returns normally). -/
structure AppModel where
  adapterMatchResult : Except AdapterErr (Rule × Nat)
  openSessionResult : Option Nat
  teardownRequestHook : Option Exc → Option Exc
  teardownAppcontextHook : Option Exc → Option Exc

/-- Observable events: adapter match calls, hook invocations (with the
error they were passed) and signal sends. -/
inductive Event where
  | matchCalled
  | reqTeardown (e : Option Exc)
  | appTeardown (e : Option Exc)
  | pushedSignal
  | poppedSignal
deriving DecidableEq

/-- Mutable state of a RequestContext object: the _after_request_functions
list (callables as Nat codes), the session, and the request object it
mutated at construction. -/
structure ReqCtxData where
  after_request_functions : List Nat
  session : Option SessionVal
  request_websocket : BaseRequestWebsocket
deriving DecidableEq

/-- Mutable state of a WebsocketContext object. -/
structure WsCtxData where
  session : Option SessionVal
  request_websocket : BaseRequestWebsocket
deriving DecidableEq

/-- The state of one task: the three task-local stacks (holding object
ids), the heaps of mutable context objects (association lists read
first-match-first, so prepending an entry is a functional update), and
the id allocation counter. -/
structure World where
  app_ctx_stack : List Nat
  request_ctx_stack : List Nat
  websocket_ctx_stack : List Nat
  appCtxCounts : List (Nat × Int)
  reqCtxHeap : List (Nat × ReqCtxData)
  wsCtxHeap : List (Nat × WsCtxData)
  nextId : Nat
deriving DecidableEq

/-- The effect type of ctx.py operations: state transformer producing an
event trace and a possibly-exceptional result.  On an exception the
state reached so far is kept, as in Python. -/
def M (α : Type) : Type := World → World × List Event × Except Exc α

def mret {α : Type} (a : α) : M α := fun w => (w, [], Except.ok a)

def mthrow {α : Type} (e : Exc) : M α := fun w => (w, [], Except.error e)

def mbind {α β : Type} (m : M α) (f : α → M β) : M β := fun w =>
  match m w with
  | (w1, t1, Except.ok a) =>
    match f a w1 with
    | (w2, t2, r) => (w2, t1 ++ t2, r)
  | (w1, t1, Except.error e) => (w1, t1, Except.error e)

def mseq {α β : Type} (m : M α) (k : M β) : M β := mbind m (fun _ => k)

/-- Python try/finally: the finally block runs on both paths; an
exception raised by the finally block replaces the body exception. -/
def mtryFinally {α : Type} (body : M α) (fin : M Unit) : M α := fun w =>
  match body w with
  | (w1, t1, Except.ok a) =>
    match fin w1 with
    | (w2, t2, Except.ok _) => (w2, t1 ++ t2, Except.ok a)
    | (w2, t2, Except.error e2) => (w2, t1 ++ t2, Except.error e2)
  | (w1, t1, Except.error e1) =>
    match fin w1 with
    | (w2, t2, Except.ok _) => (w2, t1 ++ t2, Except.error e1)
    | (w2, t2, Except.error e2) => (w2, t1 ++ t2, Except.error e2)

def memit (ev : Event) : M Unit := fun w => (w, [ev], Except.ok ())

/-- Modelled from the spec: TaskLocalStack.top (section 4.1) returns the
current top or an empty indicator, never raises.  The stack code itself
(.globals / the local module) is not in this file-set. -/
def stackTop (s : List Nat) : Option Nat := s.head?

/-- The reference count of the AppContext object with id i
(_app_reference_count).  Reads the most recent heap entry. -/
def getCount (w : World) (i : Nat) : Int := (w.appCtxCounts.lookup i).getD 0

/-- Functional update of an AppContext reference count (prepend wins on
lookup). -/
def setCount (w : World) (i : Nat) (c : Int) : World :=
  { w with appCtxCounts := (i, c) :: w.appCtxCounts }

/-- Modelled from the spec: TaskLocalStack.pop (section 4.1) removes and
returns the top, failing with EmptyStackError when empty; here for the
application-context stack. -/
def appStackPop : M Nat := fun w =>
  match w.app_ctx_stack with
  | [] => (w, [], Except.error Exc.emptyStack)
  | x :: rest => ({ w with app_ctx_stack := rest }, [], Except.ok x)

/-- Modelled from the spec: TaskLocalStack.pop for the request stack. -/
def requestStackPop : M Nat := fun w =>
  match w.request_ctx_stack with
  | [] => (w, [], Except.error Exc.emptyStack)
  | x :: rest => ({ w with request_ctx_stack := rest }, [], Except.ok x)

/-- Modelled from the spec: TaskLocalStack.pop for the websocket stack. -/
def websocketStackPop : M Nat := fun w =>
  match w.websocket_ctx_stack with
  | [] => (w, [], Except.error Exc.emptyStack)
  | x :: rest => ({ w with websocket_ctx_stack := rest }, [], Except.ok x)

/-- app.do_teardown_appcontext(exc): records the invocation in the trace
and raises whatever the hook raises. -/
def do_teardown_appcontext (app : AppModel) (exc : Option Exc) : M Unit := fun w =>
  (w, [Event.appTeardown exc],
    match app.teardownAppcontextHook exc with
    | none => Except.ok ()
    | some e => Except.error e)

/-- app.do_teardown_request(exc, ctx): records the invocation and raises
whatever the hook raises.  (The ctx argument does not influence the
model.) -/
def do_teardown_request (app : AppModel) (exc : Option Exc) : M Unit := fun w =>
  (w, [Event.reqTeardown exc],
    match app.teardownRequestHook exc with
    | none => Except.ok ()
    | some e => Except.error e)

/-- Modelled from the spec: Quart.app_context() (app.py, outside this
file-set) constructs a fresh AppContext for the application; per the
spec (section 3) its reference count starts at 0.  Returns the new id. -/
def Quart.app_context : M Nat := fun w =>
  ({ w with
      nextId := w.nextId + 1,
      appCtxCounts := (w.nextId, (0 : Int)) :: w.appCtxCounts }, [],
    Except.ok w.nextId)

/-- AppContext.push (ctx.py lines 137-140): increment the reference
count, push this context onto the app stack, send appcontext_pushed. -/
def AppContext.push (i : Nat) : M Unit := fun w =>
  let w1 := setCount w i (getCount w i + 1)
  ({ w1 with app_ctx_stack := i :: w1.app_ctx_stack }, [Event.pushedSignal],
    Except.ok ())

/-- self._app_reference_count -= 1 on the context with id i. -/
def decRefCount (i : Nat) : M Unit := fun w =>
  (setCount w i (getCount w i - 1), [], Except.ok ())

/-- if self._app_reference_count <= 0: await app.do_teardown_appcontext(exc)
(reads the already-decremented count). -/
def teardownIfZero (app : AppModel) (i : Nat) (exc : Option Exc) : M Unit := fun w =>
  if getCount w i ≤ 0 then do_teardown_appcontext app exc w
  else (w, [], Except.ok ())

/-- AppContext.pop (ctx.py lines 142-149): decrement the count; then
try: conditional teardown, finally: pop the app stack; then send
appcontext_popped. -/
def AppContext.pop (app : AppModel) (i : Nat) (exc : Option Exc) : M Unit :=
  mseq (decRefCount i)
    (mseq
      (mtryFinally (teardownIfZero app i exc) (mseq appStackPop (mret ())))
      (memit Event.poppedSignal))

/-- url_adapter.match() at construction: records a matchCalled event and
yields the adapter outcome (Router contract). -/
def adapterMatchCall (app : AppModel) : M (Except AdapterErr (Rule × Nat)) := fun w =>
  (w, [Event.matchCalled], Except.ok app.adapterMatchResult)

/-- _BaseRequestWebsocketContext.match_request (ctx.py lines 33-43):
try to match; on success store url_rule and view_args, on
NotFound/MethodNotAllowed/RedirectRequired store routing_exception. -/
def matchRequestBase (app : AppModel) (rw : BaseRequestWebsocket) :
    M BaseRequestWebsocket :=
  mbind (adapterMatchCall app) (fun res =>
    match res with
    | Except.ok ra =>
      mret { rw with url_rule := some ra.1, view_args := some ra.2 }
    | Except.error e =>
      mret { rw with routing_exception := some e.toRoutingExc })

/-- _BaseRequestWebsocketContext.__init__ (ctx.py lines 24-31): set
routing_exception to None, then run match_request; yields the request
object as mutated by construction. -/
def _BaseRequestWebsocketContext.init (app : AppModel)
    (rw0 : BaseRequestWebsocket) : M BaseRequestWebsocket :=
  matchRequestBase app { rw0 with routing_exception := none }

/-- WebsocketContext.match_request (ctx.py lines 102-105): the base
match; then, if no routing exception was stored and the matched rule is
not websocket-capable, store BadRequest.  Accessing is_websocket on an
absent url_rule would be a Python attribute error on None. -/
def WebsocketContext.match_request (app : AppModel)
    (rw : BaseRequestWebsocket) : M BaseRequestWebsocket :=
  mbind (matchRequestBase app rw) (fun rw1 =>
    match rw1.routing_exception with
    | some _ => mret rw1
    | none =>
      match rw1.url_rule with
      | some rule =>
        if rule.is_websocket then mret rw1
        else mret { rw1 with routing_exception := some RoutingExc.badRequest }
      | none => mthrow Exc.attributeError)

/-- WebsocketContext.__init__: like the base init but with the
overridden match_request. -/
def WebsocketContext.init (app : AppModel) (rw0 : BaseRequestWebsocket) :
    M BaseRequestWebsocket :=
  WebsocketContext.match_request app { rw0 with routing_exception := none }

/-- RequestContext(app, request): run the base construction, then
allocate the context object with an empty _after_request_functions
list; returns the new context id. -/
def RequestContext.new (app : AppModel) (rw0 : BaseRequestWebsocket) : M Nat :=
  mbind (_BaseRequestWebsocketContext.init app rw0) (fun rw => fun w =>
    ({ w with
        nextId := w.nextId + 1,
        reqCtxHeap := (w.nextId,
          { after_request_functions := [], session := none,
            request_websocket := rw }) :: w.reqCtxHeap }, [],
      Except.ok w.nextId))

/-- WebsocketContext(app, websocket): construction with the overridden
match_request; returns the new context id. -/
def WebsocketContext.new (app : AppModel) (rw0 : BaseRequestWebsocket) : M Nat :=
  mbind (WebsocketContext.init app rw0) (fun rw => fun w =>
    ({ w with
        nextId := w.nextId + 1,
        wsCtxHeap := (w.nextId,
          { session := none, request_websocket := rw }) :: w.wsCtxHeap }, [],
      Except.ok w.nextId))

/-- The first step of _BaseRequestWebsocketContext.__aenter__ (ctx.py
lines 45-49): if the app stack top is None, construct app.app_context()
and push it; otherwise do nothing. -/
def implicitAppPush (_app : AppModel) : M Unit := fun w =>
  match stackTop w.app_ctx_stack with
  | none => (mbind Quart.app_context (fun i => AppContext.push i)) w
  | some _ => (w, [], Except.ok ())

/-- The session obtained in __aenter__: open_session, or the null
session when that returns None. -/
def openedSession (app : AppModel) : SessionVal :=
  match app.openSessionResult with
  | some n => SessionVal.opened n
  | none => SessionVal.nullSession

/-- self.session := s on a request context object. -/
def setReqSession (i : Nat) (s : SessionVal) : M Unit := fun w =>
  match w.reqCtxHeap.lookup i with
  | some d =>
    ({ w with reqCtxHeap :=
        (i, { d with session := some s }) :: w.reqCtxHeap }, [], Except.ok ())
  | none => (w, [], Except.ok ())

/-- self.session := s on a websocket context object. -/
def setWsSession (i : Nat) (s : SessionVal) : M Unit := fun w =>
  match w.wsCtxHeap.lookup i with
  | some d =>
    ({ w with wsCtxHeap :=
        (i, { d with session := some s }) :: w.wsCtxHeap }, [], Except.ok ())
  | none => (w, [], Except.ok ())

/-- RequestContext.__aenter__ (ctx.py lines 79-82): base enter (implicit
app push, then session), then push self onto the request stack. -/
def RequestContext.aenter (app : AppModel) (i : Nat) : M Unit :=
  mseq (implicitAppPush app)
    (mseq (setReqSession i (openedSession app))
      (fun w =>
        ({ w with request_ctx_stack := i :: w.request_ctx_stack }, [],
          Except.ok ())))

/-- WebsocketContext.__aenter__ (ctx.py lines 107-110). -/
def WebsocketContext.aenter (app : AppModel) (i : Nat) : M Unit :=
  mseq (implicitAppPush app)
    (mseq (setWsSession i (openedSession app))
      (fun w =>
        ({ w with websocket_ctx_stack := i :: w.websocket_ctx_stack }, [],
          Except.ok ())))

/-- _BaseRequestWebsocketContext.__aexit__ (ctx.py lines 55-57):
await self.app.app_context().pop(exc_value) - note that app_context()
yields a fresh AppContext, whose pop is then invoked. -/
def _BaseRequestWebsocketContext.aexit (app : AppModel) (exc : Option Exc) :
    M Unit :=
  mbind Quart.app_context (fun i => AppContext.pop app i exc)

/-- RequestContext.__aexit__ (ctx.py lines 84-87): request teardown,
then pop the request stack, then the base exit; plain sequencing, no
try/finally. -/
def RequestContext.aexit (app : AppModel) (exc : Option Exc) : M Unit :=
  mseq (do_teardown_request app exc)
    (mseq (mseq requestStackPop (mret ()))
      (_BaseRequestWebsocketContext.aexit app exc))

/-- WebsocketContext.__aexit__ (ctx.py lines 112-114): pop the websocket
stack, then the base exit. -/
def WebsocketContext.aexit (app : AppModel) (exc : Option Exc) : M Unit :=
  mseq (mseq websocketStackPop (mret ()))
    (_BaseRequestWebsocketContext.aexit app exc)

/-- after_this_request (ctx.py lines 159-176): append the callable to
_request_ctx_stack.top._after_request_functions and return it; with no
active request context the attribute access on None fails
(NoActiveContextError in the words of the spec). -/
def after_this_request (f : Nat) : M Nat := fun w =>
  match stackTop w.request_ctx_stack with
  | none => (w, [], Except.error Exc.noActiveContext)
  | some i =>
    match w.reqCtxHeap.lookup i with
    | some d =>
      ({ w with reqCtxHeap :=
          (i, { d with after_request_functions :=
            d.after_request_functions ++ [f] }) :: w.reqCtxHeap }, [],
        Except.ok f)
    | none => (w, [], Except.error Exc.attributeError)

/-- has_app_context (ctx.py lines 179-192): _app_ctx_stack.top is not None. -/
def has_app_context : M Bool := fun w =>
  (w, [], Except.ok (stackTop w.app_ctx_stack).isSome)

/-- has_request_context (ctx.py lines 195-208). -/
def has_request_context : M Bool := fun w =>
  (w, [], Except.ok (stackTop w.request_ctx_stack).isSome)

/-- has_websocket_context (ctx.py lines 211-224). -/
def has_websocket_context : M Bool := fun w =>
  (w, [], Except.ok (stackTop w.websocket_ctx_stack).isSome)

/-- One full request round: construct a RequestContext, enter it, run a
body whose outcome is bodyExc (none = returned normally, some e =
raised e), and exit.  Python async-with semantics: __aexit__ receives
the body exception; if __aexit__ completes normally the body exception
is re-raised, and an exception from __aexit__ replaces it. -/
def requestCycle (app : AppModel) (rw0 : BaseRequestWebsocket)
    (bodyExc : Option Exc) : M Unit :=
  mbind (RequestContext.new app rw0) (fun i =>
    mseq (RequestContext.aenter app i)
      (fun w =>
        match RequestContext.aexit app bodyExc w with
        | (w1, t1, Except.ok _) =>
          (w1, t1,
            match bodyExc with
            | none => Except.ok ()
            | some e => Except.error e)
        | (w1, t1, Except.error e2) => (w1, t1, Except.error e2)))

/-- Number of app-teardown invocations recorded in a trace. -/
def countAppTeardowns (tr : List Event) : Nat :=
  (tr.filter (fun ev =>
    match ev with
    | Event.appTeardown _ => true
    | _ => false)).length

/-- Number of appcontext_pushed signal sends recorded in a trace. -/
def countPushedSignals (tr : List Event) : Nat :=
  (tr.filter (fun ev =>
    match ev with
    | Event.pushedSignal => true
    | _ => false)).length

/-- Number of adapter match calls recorded in a trace. -/
def countMatchCalls (tr : List Event) : Nat :=
  (tr.filter (fun ev =>
    match ev with
    | Event.matchCalled => true
    | _ => false)).length

/-- The _after_request_functions list of the request context with id i. -/
def reqCtxFuncs (w : World) (i : Nat) : Option (List Nat) :=
  (w.reqCtxHeap.lookup i).map (fun d => d.after_request_functions)

/-- The request object stored on the request context with id i. -/
def reqCtxRW (w : World) (i : Nat) : Option BaseRequestWebsocket :=
  (w.reqCtxHeap.lookup i).map (fun d => d.request_websocket)

/-- The websocket object stored on the websocket context with id i. -/
def wsCtxRW (w : World) (i : Nat) : Option BaseRequestWebsocket :=
  (w.wsCtxHeap.lookup i).map (fun d => d.request_websocket)

/-- _AppCtxGlobals (ctx.py lines 230-252): its __dict__, an
insertion-ordered mapping with unique keys, values as Nat codes. -/
structure _AppCtxGlobals where
  dict : List (String × Nat)
deriving DecidableEq

/-- KeyError from __dict__.pop without a default (KeyNotFound in the
words of the spec). -/
inductive GlobalsErr where
  | keyNotFound
deriving DecidableEq

/-- dict removal of a key: drops the entry with that key, keeps the
rest in order. -/
def removeKey (d : List (String × Nat)) (k : String) : List (String × Nat) :=
  d.filter (fun p => !(p.1 == k))

/-- _AppCtxGlobals.get (ctx.py lines 233-235): __dict__.get(name, default). -/
def _AppCtxGlobals.get (g : _AppCtxGlobals) (name : String)
    (default : Option Nat) : Option Nat :=
  match g.dict.lookup name with
  | some v => some v
  | none => default

/-- _AppCtxGlobals.pop (ctx.py lines 237-242): with no default
(default = none models the _sentinel) __dict__.pop(name), KeyError if
absent; with a default, __dict__.pop(name, default). -/
def _AppCtxGlobals.pop (g : _AppCtxGlobals) (name : String)
    (default : Option Nat) : Except GlobalsErr (Nat × _AppCtxGlobals) :=
  match default with
  | none =>
    match g.dict.lookup name with
    | some v => Except.ok (v, { dict := removeKey g.dict name })
    | none => Except.error GlobalsErr.keyNotFound
  | some d =>
    match g.dict.lookup name with
    | some v => Except.ok (v, { dict := removeKey g.dict name })
    | none => Except.ok (d, g)

/-- _AppCtxGlobals.setdefault (ctx.py lines 244-246). -/
def _AppCtxGlobals.setdefault (g : _AppCtxGlobals) (name : String)
    (d : Nat) : Nat × _AppCtxGlobals :=
  match g.dict.lookup name with
  | some v => (v, g)
  | none => (d, { dict := g.dict ++ [(name, d)] })

/-- _AppCtxGlobals.__contains__ (ctx.py lines 248-249). -/
def _AppCtxGlobals.contains (g : _AppCtxGlobals) (name : String) : Bool :=
  (g.dict.lookup name).isSome

/-! Shared concrete fixtures used by witnesses and concrete evaluations. -/

/-- A request/websocket object as produced by the transport: nothing
matched yet. -/
def rwInit : BaseRequestWebsocket :=
  { url_rule := none, view_args := none, routing_exception := none }

/-- An application whose adapter matches a non-websocket rule and whose
teardown hooks never raise. -/
def quietApp : AppModel :=
  { adapterMatchResult := Except.ok ({ is_websocket := false, endpoint := 0 }, 0),
    openSessionResult := none,
    teardownRequestHook := fun _ => none,
    teardownAppcontextHook := fun _ => none }

/-- An application whose adapter fails with NotFound. -/
def notFoundApp : AppModel :=
  { adapterMatchResult := Except.error AdapterErr.notFound,
    openSessionResult := none,
    teardownRequestHook := fun _ => none,
    teardownAppcontextHook := fun _ => none }

/-- An application whose request-teardown hook always raises exception 7. -/
def raisingReqApp : AppModel :=
  { adapterMatchResult := Except.ok ({ is_websocket := false, endpoint := 0 }, 0),
    openSessionResult := none,
    teardownRequestHook := fun _ => some (Exc.exc 7),
    teardownAppcontextHook := fun _ => none }

/-- A task state in which an AppContext (id 0) is active with reference
count 1 and nothing else is active. -/
def activeAppWorld : World :=
  { app_ctx_stack := [0], request_ctx_stack := [], websocket_ctx_stack := [],
    appCtxCounts := [(0, 1)], reqCtxHeap := [], wsCtxHeap := [], nextId := 1 }

/-- A task state in which an AppContext (id 0, count 1) is active and a
RequestContext (id 1) has been entered on top of it. -/
def enteredReqWorld : World :=
  { app_ctx_stack := [0], request_ctx_stack := [1], websocket_ctx_stack := [],
    appCtxCounts := [(0, 1)],
    reqCtxHeap := [(1,
      { after_request_functions := [], session := some SessionVal.nullSession,
        request_websocket := rwInit })],
    wsCtxHeap := [], nextId := 2 }

/-- A fresh task state: nothing active, nothing allocated. -/
def emptyWorld : World :=
  { app_ctx_stack := [], request_ctx_stack := [], websocket_ctx_stack := [],
    appCtxCounts := [], reqCtxHeap := [], wsCtxHeap := [], nextId := 0 }

/-! Helper lemmas. -/

theorem headIsSomeEqNeNil (l : List Nat) : l.head?.isSome = decide (l ≠ []) := by
  cases l <;> simp

theorem getCount_setCount (w : World) (i : Nat) (c : Int) :
    getCount (setCount w i c) i = c := by
  simp [getCount, setCount, List.lookup]

/-- Claim C8: has_app_context, has_request_context and has_websocket_context
return exactly the non-emptiness of the corresponding task-local stack,
leave the state untouched, record no events and never fail. -/
theorem C8_has_context_predicates (w : World) :
    has_app_context w = (w, [], Except.ok (decide (w.app_ctx_stack ≠ []))) ∧
    has_request_context w = (w, [], Except.ok (decide (w.request_ctx_stack ≠ []))) ∧
    has_websocket_context w = (w, [], Except.ok (decide (w.websocket_ctx_stack ≠ []))) := by
  refine ⟨?_, ?_, ?_⟩ <;>
    simp [has_app_context, has_request_context, has_websocket_context,
      stackTop, headIsSomeEqNeNil]

/-- Claim C1 (code behaviour at the failing input): starting from a task
where an AppContext (id 0) is active with reference count 1, a full
RequestContext enter/exit cycle performs no app-context push at all (no
pushed signal, count stays 1), invokes the app-context teardown hook
once on exit, and leaves the app-context stack empty while the entered
AppContext still has count 1 - contrary to the claimed increment to 2,
pop of the same instance, and absence of a teardown invocation. -/
theorem C1_nested_request_cycle_code_behavior :
    countPushedSignals (requestCycle quietApp rwInit none activeAppWorld).2.1 = 0 ∧
    countAppTeardowns (requestCycle quietApp rwInit none activeAppWorld).2.1 = 1 ∧
    (requestCycle quietApp rwInit none activeAppWorld).1.app_ctx_stack = [] ∧
    getCount (requestCycle quietApp rwInit none activeAppWorld).1 0 = 1 ∧
    (requestCycle quietApp rwInit none activeAppWorld).2.2 = Except.ok () :=
  ⟨rfl, rfl, rfl, by decide, rfl⟩

/-- Claim C7 (code behaviour at the failing input): with a RequestContext
(id 1) entered above an active AppContext (id 0), exiting while the
request-teardown hook raises exception 7 propagates that failure with
the request stack entry still present, the app-context stack untouched,
and no app-context teardown invoked - contrary to the claimed
finally-style cleanup. -/
theorem C7_request_teardown_failure_skips_cleanup :
    (RequestContext.aexit raisingReqApp none enteredReqWorld).2.2 =
      Except.error (Exc.exc 7) ∧
    (RequestContext.aexit raisingReqApp none enteredReqWorld).1.request_ctx_stack = [1] ∧
    (RequestContext.aexit raisingReqApp none enteredReqWorld).1.app_ctx_stack = [0] ∧
    countAppTeardowns (RequestContext.aexit raisingReqApp none enteredReqWorld).2.1 = 0 :=
  ⟨rfl, rfl, rfl, rfl⟩

theorem lookup_cons_self {α β : Type} [BEq α] [LawfulBEq α] (k : α) (v : β)
    (d : List (α × β)) : ((k, v) :: d).lookup k = some v := by
  simp [List.lookup]

theorem lookup_removeKey_self (d : List (String × Nat)) (k : String) :
    (removeKey d k).lookup k = none := by
  induction d with
  | nil => rfl
  | cons p rest ih =>
    rcases p with ⟨k1, v⟩
    by_cases hp : k1 = k
    · simpa [removeKey, List.filter_cons, hp] using ih
    · have hb : (k == k1) = false := by simp [Ne.symm hp]
      simp only [removeKey, List.filter_cons] at ih ⊢
      simp [hp, List.lookup, hb, ih]

theorem lookup_removeKey_ne (d : List (String × Nat)) (k k2 : String)
    (h : k2 ≠ k) : (removeKey d k).lookup k2 = d.lookup k2 := by
  induction d with
  | nil => rfl
  | cons p rest ih =>
    rcases p with ⟨k1, v⟩
    by_cases hp : k1 = k
    · have hb : (k2 == k1) = false := by simp [hp, h]
      have hbk : (k2 == k) = false := by simp [h]
      simp only [removeKey, List.filter_cons] at ih ⊢
      simp [hp, List.lookup, hb, hbk, ih]
    · simp only [removeKey, List.filter_cons] at ih ⊢
      by_cases hk2 : k2 = k1
      · simp [hp, List.lookup, hk2]
      · have hb : (k2 == k1) = false := by simp [hk2]
        simp [hp, List.lookup, hb, ih]

/-- Claim C9: on the globals store, pop without a default fails with
KeyNotFound when the key is absent; pop with a default returns the
stored value and removes the key when present, and returns the default
leaving the store unchanged when absent. -/
theorem C9_globals_pop (g : _AppCtxGlobals) (k : String) :
    (g.dict.lookup k = none →
      _AppCtxGlobals.pop g k none = Except.error GlobalsErr.keyNotFound) ∧
    (∀ d, g.dict.lookup k = none →
      _AppCtxGlobals.pop g k (some d) = Except.ok (d, g)) ∧
    (∀ d v, g.dict.lookup k = some v →
      _AppCtxGlobals.pop g k (some d) =
        Except.ok (v, { dict := removeKey g.dict k }) ∧
      (removeKey g.dict k).lookup k = none ∧
      ∀ k2, k2 ≠ k → (removeKey g.dict k).lookup k2 = g.dict.lookup k2) := by
  refine ⟨?_, ?_, ?_⟩
  · intro h
    simp [_AppCtxGlobals.pop, h]
  · intro d h
    simp [_AppCtxGlobals.pop, h]
  · intro d v h
    exact ⟨by simp [_AppCtxGlobals.pop, h], lookup_removeKey_self g.dict k,
      fun k2 hk => lookup_removeKey_ne g.dict k k2 hk⟩

theorem C9_globals_pop_witness :
    _AppCtxGlobals.pop { dict := [] } "a" none = Except.error GlobalsErr.keyNotFound ∧
    _AppCtxGlobals.pop { dict := [] } "a" (some 9) = Except.ok (9, { dict := [] }) ∧
    _AppCtxGlobals.pop { dict := [("a", 3)] } "a" (some 9) =
      Except.ok (3, { dict := removeKey [("a", 3)] "a" }) :=
  ⟨(C9_globals_pop { dict := [] } "a").1 rfl,
   (C9_globals_pop { dict := [] } "a").2.1 9 rfl,
   ((C9_globals_pop { dict := [("a", 3)] } "a").2.2 9 3 rfl).1⟩

/-- Claim C6: after_this_request fails with NoActiveContextError when no
RequestContext is active for the task; with one active it appends the
callback at the end of that context's callback list, so registration
order is retained. -/
theorem C6_after_this_request_spec (w : World) (f : Nat) :
    (w.request_ctx_stack = [] →
      after_this_request f w = (w, [], Except.error Exc.noActiveContext)) ∧
    (∀ i rest d, w.request_ctx_stack = i :: rest →
      w.reqCtxHeap.lookup i = some d →
      (after_this_request f w).2.2 = Except.ok f ∧
      reqCtxFuncs (after_this_request f w).1 i =
        some (d.after_request_functions ++ [f])) := by
  constructor
  · intro h
    simp [after_this_request, stackTop, h]
  · intro i rest d hs hl
    constructor
    · simp [after_this_request, stackTop, hs, hl]
    · simp [after_this_request, stackTop, hs, hl, reqCtxFuncs, List.lookup]

theorem C6_after_this_request_witness :
    after_this_request 5 emptyWorld = (emptyWorld, [], Except.error Exc.noActiveContext) ∧
    ((after_this_request 5 enteredReqWorld).2.2 = Except.ok 5 ∧
      reqCtxFuncs (after_this_request 5 enteredReqWorld).1 1 = some ([] ++ [5])) :=
  ⟨(C6_after_this_request_spec emptyWorld 5).1 rfl,
   (C6_after_this_request_spec enteredReqWorld 5).2 1 []
     { after_request_functions := [], session := some SessionVal.nullSession,
       request_websocket := rwInit } rfl rfl⟩

/-- Claim C10: while a RequestContext is active, after_this_request
returns exactly the callable it was given, so it can be used as a
decorator without altering the decorated function. -/
theorem C10_after_this_request_returns_callable (w : World) (f i : Nat)
    (rest : List Nat) (d : ReqCtxData)
    (hs : w.request_ctx_stack = i :: rest)
    (hl : w.reqCtxHeap.lookup i = some d) :
    (after_this_request f w).2.2 = Except.ok f := by
  simp [after_this_request, stackTop, hs, hl]

theorem C10_after_this_request_returns_callable_witness :
    (after_this_request 9 enteredReqWorld).2.2 = Except.ok 9 :=
  C10_after_this_request_returns_callable enteredReqWorld 9 1 []
    { after_request_functions := [], session := some SessionVal.nullSession,
      request_websocket := rwInit } rfl rfl

/-- Claim C4: for both RequestContext and WebsocketContext construction,
the adapter match is attempted exactly once at construction, the
construction always succeeds (returns the new context id), and a
NotFound / MethodNotAllowed / RedirectRequired outcome is stored on the
request/websocket object as a deferred routing failure instead of being
raised. -/
theorem C4_construction_routing (app : AppModel) (rw0 : BaseRequestWebsocket)
    (w : World) :
    (RequestContext.new app rw0 w).2.2 = Except.ok w.nextId ∧
    (WebsocketContext.new app rw0 w).2.2 = Except.ok w.nextId ∧
    countMatchCalls (RequestContext.new app rw0 w).2.1 = 1 ∧
    countMatchCalls (WebsocketContext.new app rw0 w).2.1 = 1 ∧
    (∀ e, app.adapterMatchResult = Except.error e →
      reqCtxRW (RequestContext.new app rw0 w).1 w.nextId =
        some { rw0 with routing_exception := some e.toRoutingExc } ∧
      wsCtxRW (WebsocketContext.new app rw0 w).1 w.nextId =
        some { rw0 with routing_exception := some e.toRoutingExc }) := by
  rcases hm : app.adapterMatchResult with e | ra
  · simp [RequestContext.new, WebsocketContext.new,
      _BaseRequestWebsocketContext.init, WebsocketContext.init,
      WebsocketContext.match_request, matchRequestBase, adapterMatchCall,
      mbind, mret, hm, countMatchCalls, reqCtxRW, wsCtxRW, List.lookup]
  · rcases ra with ⟨rule, args⟩
    cases hws : rule.is_websocket <;>
      simp [RequestContext.new, WebsocketContext.new,
        _BaseRequestWebsocketContext.init, WebsocketContext.init,
        WebsocketContext.match_request, matchRequestBase, adapterMatchCall,
        mbind, mret, hm, hws, countMatchCalls, reqCtxRW, wsCtxRW, List.lookup]

theorem C4_construction_routing_witness :
    reqCtxRW (RequestContext.new notFoundApp rwInit emptyWorld).1 emptyWorld.nextId =
      some { rwInit with routing_exception := some RoutingExc.notFound } ∧
    wsCtxRW (WebsocketContext.new notFoundApp rwInit emptyWorld).1 emptyWorld.nextId =
      some { rwInit with routing_exception := some RoutingExc.notFound } :=
  (C4_construction_routing notFoundApp rwInit emptyWorld).2.2.2.2
    AdapterErr.notFound rfl

/-- Claim C5: a WebsocketContext constructed against an input whose route
matches successfully but whose matched rule is not websocket-capable
records a BadRequest deferred routing failure on the websocket object
and construction does not raise. -/
theorem C5_ws_non_ws_rule_badrequest (app : AppModel)
    (rw0 : BaseRequestWebsocket) (w : World) (rule : Rule) (args : Nat)
    (hm : app.adapterMatchResult = Except.ok (rule, args))
    (hws : rule.is_websocket = false) :
    (WebsocketContext.new app rw0 w).2.2 = Except.ok w.nextId ∧
    wsCtxRW (WebsocketContext.new app rw0 w).1 w.nextId =
      some { rw0 with
              url_rule := some rule
              view_args := some args
              routing_exception := some RoutingExc.badRequest } := by
  simp [WebsocketContext.new, WebsocketContext.init,
    WebsocketContext.match_request, matchRequestBase, adapterMatchCall,
    mbind, mret, hm, hws, wsCtxRW, List.lookup]

theorem C5_ws_non_ws_rule_badrequest_witness :
    (WebsocketContext.new quietApp rwInit emptyWorld).2.2 =
      Except.ok emptyWorld.nextId ∧
    wsCtxRW (WebsocketContext.new quietApp rwInit emptyWorld).1 emptyWorld.nextId =
      some { rwInit with
              url_rule := some { is_websocket := false, endpoint := 0 }
              view_args := some 0
              routing_exception := some RoutingExc.badRequest } :=
  C5_ws_non_ws_rule_badrequest quietApp rwInit emptyWorld
    { is_websocket := false, endpoint := 0 } 0 rfl rfl

/-- Projection: updating the app stack leaves reference counts alone. -/
theorem getCount_set_stack (w : World) (s : List Nat) (i : Nat) :
    getCount { w with app_ctx_stack := s } i = getCount w i := rfl

/-- Projection: setCount leaves the app stack alone. -/
theorem setCount_app_ctx_stack (w : World) (i : Nat) (c : Int) :
    (setCount w i c).app_ctx_stack = w.app_ctx_stack := rfl

/-- Closed form of AppContext.pop on a non-empty app-context stack. -/
theorem appContextPop_eq (app : AppModel) (i : Nat) (exc : Option Exc)
    (w : World) (x : Nat) (rest : List Nat)
    (hs : w.app_ctx_stack = x :: rest) :
    AppContext.pop app i exc w =
      if getCount w i - 1 ≤ 0 then
        match app.teardownAppcontextHook exc with
        | none =>
          ({ setCount w i (getCount w i - 1) with app_ctx_stack := rest },
            [Event.appTeardown exc, Event.poppedSignal], Except.ok ())
        | some e =>
          ({ setCount w i (getCount w i - 1) with app_ctx_stack := rest },
            [Event.appTeardown exc], Except.error e)
      else
        ({ setCount w i (getCount w i - 1) with app_ctx_stack := rest },
          [Event.poppedSignal], Except.ok ()) := by
  by_cases hc : getCount w i - 1 ≤ 0
  · rw [if_pos hc]
    cases hh : app.teardownAppcontextHook exc with
    | none =>
      simp only [AppContext.pop, mseq, mbind, decRefCount, mtryFinally,
        teardownIfZero, do_teardown_appcontext, appStackPop, memit, mret,
        getCount_setCount, setCount_app_ctx_stack, hs, hh, hc, if_true,
        List.nil_append, List.append_nil, List.cons_append]
    | some e0 =>
      simp only [AppContext.pop, mseq, mbind, decRefCount, mtryFinally,
        teardownIfZero, do_teardown_appcontext, appStackPop, memit, mret,
        getCount_setCount, setCount_app_ctx_stack, hs, hh, hc, if_true,
        List.nil_append, List.append_nil, List.cons_append]
  · rw [if_neg hc]
    simp only [AppContext.pop, mseq, mbind, decRefCount, mtryFinally,
      teardownIfZero, do_teardown_appcontext, appStackPop, memit, mret,
      getCount_setCount, setCount_app_ctx_stack, hs, hc, if_false,
      List.nil_append, List.append_nil, List.cons_append, eq_self_iff_true,
      iff_false]

/-- Claim C2: every AppContext.pop decrements the reference count; the
app-context teardown hook is invoked with the given error exactly when
the resulting count is at most 0; the top entry of the task-local
app-context stack is removed even when the teardown hook raises; and a
teardown failure propagates to the caller of pop while the stack
removal has still occurred. -/
theorem C2_appcontext_pop_contract (app : AppModel) (i : Nat)
    (exc : Option Exc) (w : World) (x : Nat) (rest : List Nat)
    (hs : w.app_ctx_stack = x :: rest) :
    getCount (AppContext.pop app i exc w).1 i = getCount w i - 1 ∧
    countAppTeardowns (AppContext.pop app i exc w).2.1 =
      (if getCount w i - 1 ≤ 0 then 1 else 0) ∧
    (Event.appTeardown exc ∈ (AppContext.pop app i exc w).2.1 ↔
      getCount w i - 1 ≤ 0) ∧
    (AppContext.pop app i exc w).1.app_ctx_stack = rest ∧
    (∀ e, getCount w i - 1 ≤ 0 → app.teardownAppcontextHook exc = some e →
      (AppContext.pop app i exc w).2.2 = Except.error e) ∧
    ((app.teardownAppcontextHook exc = none ∨ 0 < getCount w i - 1) →
      (AppContext.pop app i exc w).2.2 = Except.ok ()) := by
  have he := appContextPop_eq app i exc w x rest hs
  by_cases hc : getCount w i - 1 ≤ 0
  · rw [if_pos hc] at he
    cases hh : app.teardownAppcontextHook exc with
    | none =>
      rw [hh] at he
      rw [he]
      refine ⟨by simp [getCount_set_stack, getCount_setCount], ?_, ?_, rfl, ?_, ?_⟩
      · rw [if_pos hc]
        rfl
      · simp [hc]
      · intro e _ hcontra
        cases hcontra
      · intro _
        rfl
    | some e0 =>
      rw [hh] at he
      rw [he]
      refine ⟨by simp [getCount_set_stack, getCount_setCount], ?_, ?_, rfl, ?_, ?_⟩
      · rw [if_pos hc]
        rfl
      · simp [hc]
      · intro e _ hsome
        cases hsome
        rfl
      · intro hor
        rcases hor with hnone | hpos
        · cases hnone
        · exact absurd hc (by omega)
  · rw [if_neg hc] at he
    rw [he]
    refine ⟨by simp [getCount_set_stack, getCount_setCount], ?_, ?_, rfl, ?_, ?_⟩
    · rw [if_neg hc]
      rfl
    · simp [hc]
    · intro e hle _
      exact absurd hle hc
    · intro _
      rfl

theorem C2_appcontext_pop_contract_witness :
    activeAppWorld.app_ctx_stack = 0 :: [] ∧
    (AppContext.pop quietApp 0 none activeAppWorld).1.app_ctx_stack = [] ∧
    getCount (AppContext.pop quietApp 0 none activeAppWorld).1 0 =
      getCount activeAppWorld 0 - 1 :=
  ⟨rfl,
   (C2_appcontext_pop_contract quietApp 0 none activeAppWorld 0 [] rfl).2.2.2.1,
   (C2_appcontext_pop_contract quietApp 0 none activeAppWorld 0 [] rfl).1⟩

/-- Claim C3: from a task with no AppContext active (and an empty request
stack), a full RequestContext enter/exit cycle with hooks that do not
raise leaves both the request stack and the app-context stack empty and
invokes the app-context teardown hook exactly once. -/
theorem C3_fresh_request_cycle (app : AppModel) (rw0 : BaseRequestWebsocket)
    (w : World) (hApp : w.app_ctx_stack = []) (hReq : w.request_ctx_stack = [])
    (hTA : app.teardownAppcontextHook none = none)
    (hTR : app.teardownRequestHook none = none) :
    (requestCycle app rw0 none w).1.app_ctx_stack = [] ∧
    (requestCycle app rw0 none w).1.request_ctx_stack = [] ∧
    countAppTeardowns (requestCycle app rw0 none w).2.1 = 1 ∧
    (requestCycle app rw0 none w).2.2 = Except.ok () := by
  rcases hm : app.adapterMatchResult with e | ra
  · simp [requestCycle, RequestContext.new, _BaseRequestWebsocketContext.init,
      matchRequestBase, adapterMatchCall, RequestContext.aenter,
      implicitAppPush, Quart.app_context, AppContext.push, setReqSession,
      openedSession, RequestContext.aexit, do_teardown_request,
      requestStackPop, _BaseRequestWebsocketContext.aexit, AppContext.pop,
      decRefCount, mtryFinally, teardownIfZero, do_teardown_appcontext,
      appStackPop, memit, mseq, mbind, mret, stackTop, getCount, setCount,
      List.lookup, hApp, hReq, hTA, hTR, hm, countAppTeardowns]
  · simp [requestCycle, RequestContext.new, _BaseRequestWebsocketContext.init,
      matchRequestBase, adapterMatchCall, RequestContext.aenter,
      implicitAppPush, Quart.app_context, AppContext.push, setReqSession,
      openedSession, RequestContext.aexit, do_teardown_request,
      requestStackPop, _BaseRequestWebsocketContext.aexit, AppContext.pop,
      decRefCount, mtryFinally, teardownIfZero, do_teardown_appcontext,
      appStackPop, memit, mseq, mbind, mret, stackTop, getCount, setCount,
      List.lookup, hApp, hReq, hTA, hTR, hm, countAppTeardowns]

theorem C3_fresh_request_cycle_witness :
    emptyWorld.app_ctx_stack = [] ∧ emptyWorld.request_ctx_stack = [] ∧
    ((requestCycle quietApp rwInit none emptyWorld).1.app_ctx_stack = [] ∧
     (requestCycle quietApp rwInit none emptyWorld).1.request_ctx_stack = [] ∧
     countAppTeardowns (requestCycle quietApp rwInit none emptyWorld).2.1 = 1 ∧
     (requestCycle quietApp rwInit none emptyWorld).2.2 = Except.ok ()) :=
  ⟨rfl, rfl, C3_fresh_request_cycle quietApp rwInit emptyWorld rfl rfl rfl rfl⟩
